import Mathlib

set_option linter.unusedVariables false
set_option linter.unnecessarySimpa false

/-!
Shallow embedding of `src/build_ios_lib.py`, an iOS build driver that
cross-compiles two C libraries (jansson and avro) and merges the resulting
static libraries into a universal framework-like directory.

Modelling conventions:
  * Filesystem paths are lists of components (`Path := List String`); the
    function `render` turns a path back into the flat string the script
    passes to external commands (components joined by "/").
    `os.path.join(p, c)` becomes `p ++ [c]`.
  * `os.path.abspath` is modelled as the identity: absolutisation against
    the process working directory is not observable in any property below.
  * The directory of the script (`os.path.dirname(__file__)`) is an
    abstract marker component.
  * External processes are modelled by an oracle giving the exit status of
    every invoked command (`subprocess.check_call` raises
    `CalledProcessError` on a non-zero status and returns 0 otherwise).
  * The observable side effects (directory creation, environment mutation,
    command invocation, tree copies) are recorded in an event trace.
  * Python exceptions are modelled with `Except`; the uncaught reference to
    the unbound name `final_lib_path` on line 65 of the source is modelled
    as a `NameError` value.
  * The static filesystem snapshot `fs : List Path` (the set of existing
    files) feeds `glob.glob`; `glob` on a directory with no entries, or on
    a missing directory, returns the empty list, exactly as in Python.
-/

namespace BuildScript

/-- A filesystem path, as a list of components. -/
abbrev Path := List String

/-- Renders a path the way the script interpolates it into command lines:
components joined by "/" (the behaviour of `os.path.join` on the
component-list view of a path). -/
def render : Path → String
  | [] => ""
  | [c] => c
  | c :: rest => c ++ "/" ++ render rest

/-- Exit status assigned by the environment to every external command
invocation (command argument list, optional working directory). -/
def Oracle := List String → Option Path → Nat

/-- Python exceptions that the script can raise. -/
inductive PyError where
  | calledProcessError : List String → Nat → PyError
  | childReturned : Nat → PyError
  | nameError : String → PyError
  | fileNotFoundError : Path → PyError
  deriving DecidableEq

deriving instance DecidableEq for Except

/-- Observable side effects of the script, in program order. -/
inductive Event where
  | makedirs : Path → Event
  | setEnv : String → String → Event
  | exec : List String → Option Path → Event
  | copytree : Path → Path → Event
  deriving DecidableEq

/-- Returns true on the `copytree` constructor. -/
def Event.isCopytree : Event → Bool
  | Event.copytree _ _ => true
  | _ => false

/-- Checks whether a file name matches the glob pattern `*.a`: the name
ends in ".a" and, following the semantics of `glob.glob`, does not start
with a dot (a leading dot is never matched by `*`). -/
def globMatchDotA (s : String) : Bool :=
  (match s.data with
   | '.' :: _ => false
   | [] => false
   | _ => true)
  && (match s.data.reverse with
      | 'a' :: '.' :: _ => true
      | _ => false)

/-- Model of `glob.glob(os.path.join(directory_path, "*.a"))`: the files of
the snapshot lying directly in `dir` whose name matches `*.a`. On a missing
or empty directory this is the empty list (glob raises nothing). -/
def globDotA (fs : List Path) (dir : Path) : List Path :=
  fs.filter (fun p => p.dropLast == dir && globMatchDotA (p.getLast?.getD ""))

/-- Model of `subprocess.check_call` (line 17): raises `CalledProcessError`
when the command exits with a non-zero status, otherwise returns 0. -/
def check_call (oracle : Oracle) (cmd : List String) (cwd : Option Path) : Except PyError Nat :=
  if oracle cmd cwd = 0 then Except.ok 0
  else Except.error (PyError.calledProcessError cmd (oracle cmd cwd))

/-- Model of `execute` (lines 14-19): runs `check_call` and then, on a
non-zero return value, raises `Exception("Child returned:", retcode)`
(modelled as `childReturned`). The two print statements are not observable
effects tracked here. -/
def execute (oracle : Oracle) (cmd : List String) (cwd : Option Path) : Except PyError Unit :=
  match check_call oracle cmd cwd with
  | Except.error e => Except.error e
  | Except.ok retcode =>
    if retcode ≠ 0 then Except.error (PyError.childReturned retcode)
    else Except.ok ()

/-- The `Builder` constructor state (lines 21-25). -/
structure Builder where
  configuration : String
  bitcode_enabled : Bool
  deployment_target : String

/-- Abstract marker for `os.path.abspath(os.path.dirname(__file__))`
(line 28): the concrete directory holding the script is environment
dependent and no property below depends on it. -/
def script_dir_path : Path := ["<script_dir>"]

/-- Model of `os.path.abspath` on an already-assembled path (lines 38, 51):
the identity, since absolutisation is not observable in any property below. -/
def os_path_abspath (p : Path) : Path := p

/-- Lines 27-29: a path relative to the directory of the script. -/
def get_path_relative_to_script (b : Builder) (path_components : Path) : Path :=
  script_dir_path ++ path_components

/-- Lines 31-32. -/
def get_toolchain (b : Builder) : Path :=
  get_path_relative_to_script b ["ios-cmake", "ios.toolchain.cmake"]

/-- Lines 34-35: the fixed platform list, simulator first. -/
def get_platforms (b : Builder) : List String := ["SIMULATOR64", "OS64"]

/-- Lines 72-73. -/
def platform_install_dir (b : Builder) (out_dir : Path) (platform : String) : Path :=
  out_dir ++ [platform]

/-- Lines 76-77. -/
def platform_lib_file (b : Builder) (lib_name platform : String) : String :=
  lib_name ++ "_" ++ platform ++ ".a"

/-- Lines 91-104: the cmake Xcode project-generation command. -/
def get_cmake_xcode_generate_command (b : Builder) (platform : String) (install_dir root_dir : Path) (extra_flags : List String) : List String :=
  ["cmake",
   render root_dir,
   "-GXcode",
   "-DCMAKE_TOOLCHAIN_FILE=" ++ render (get_toolchain b),
   "-DPLATFORM=" ++ platform,
   "-DCMAKE_XCODE_ATTRIBUTE_CODE_SIGN_IDENTITY=\x27\x27",
   "-DCMAKE_XCODE_ATTRIBUTE_DEVELOPMENT_TEAM=\x27\x27",
   "-DBUILD_SHARED_LIBS=OFF",
   "-DDEPLOYMENT_TARGET=" ++ b.deployment_target,
   "-DENABLE_BITCODE=" ++ (if b.bitcode_enabled then "ON" else "OFF"),
   "-DCMAKE_INSTALL_PREFIX=" ++ render install_dir] ++ extra_flags

/-- Lines 106-117: the cmake build-and-install command. -/
def get_cmake_build_command (b : Builder) : List String :=
  ["cmake", "--build", ".", "--clean-first", "--config", b.configuration, "--target", "install"]

/-- Lines 119-122: sets the process-wide PKG_CONFIG_PATH variable to the
lib/pkgconfig subdirectory of the install directory, then runs the
generation command and the build command in the build directory. An
execution event is recorded for each command actually started. -/
def build_platform (b : Builder) (oracle : Oracle) (platform : String) (build_dir install_dir root_dir : Path) (extra_cmake_flags : List String) : List Event × Except PyError Unit :=
  let setev := Event.setEnv "PKG_CONFIG_PATH" (render (install_dir ++ ["lib", "pkgconfig"]))
  let gen := get_cmake_xcode_generate_command b platform install_dir root_dir extra_cmake_flags
  match execute oracle gen (some build_dir) with
  | Except.error e => ([setev, Event.exec gen (some build_dir)], Except.error e)
  | Except.ok _ =>
    match execute oracle (get_cmake_build_command b) (some build_dir) with
    | Except.error e =>
      ([setev, Event.exec gen (some build_dir), Event.exec (get_cmake_build_command b) (some build_dir)], Except.error e)
    | Except.ok _ =>
      ([setev, Event.exec gen (some build_dir), Event.exec (get_cmake_build_command b) (some build_dir)], Except.ok ())

/-- The platform loop of `_build` (lines 43-48): for each platform, create
the platform build directory, then run `build_platform` for it; a raised
exception aborts the remaining iterations. -/
def build_loop (b : Builder) (oracle : Oracle) (out_dir build_path root_dir : Path) (extra_cmake_flags : List String) : List String → List Event × Except PyError Unit
  | [] => ([], Except.ok ())
  | platform :: rest =>
    let platform_build_dir := build_path ++ [platform]
    let install_dir := out_dir ++ [platform]
    let step := build_platform b oracle platform platform_build_dir install_dir root_dir extra_cmake_flags
    match step.2 with
    | Except.error e => (Event.makedirs platform_build_dir :: step.1, Except.error e)
    | Except.ok _ =>
      let rest_result := build_loop b oracle out_dir build_path root_dir extra_cmake_flags rest
      (Event.makedirs platform_build_dir :: (step.1 ++ rest_result.1), rest_result.2)

/-- Lines 37-48: `_build` absolutises the output directory, resolves the
root directory relative to the script, creates the output directory, and
runs the platform loop over `get_platforms`. -/
def _build (b : Builder) (oracle : Oracle) (out_dir root_dir : Path) (lib_name : String) (extra_cmake_flags : List String) : List Event × Except PyError Unit :=
  let out_dir := os_path_abspath out_dir
  let root_dir := get_path_relative_to_script b root_dir
  let build_path := out_dir ++ [lib_name, "build"]
  let loop := build_loop b oracle out_dir build_path root_dir extra_cmake_flags (get_platforms b)
  (Event.makedirs out_dir :: loop.1, loop.2)

/-- Result of a whole process run: the exit status, and whether the
bordered error banner of `Builder.build` (lines 85-88) was printed on the
diagnostic stream. -/
structure ProcResult where
  exitCode : Nat
  banner : Bool
  deriving DecidableEq

/-- Lines 79-89: `build` normalises the optional extra flags, runs
`_build`, and on any exception prints the bordered banner plus stack trace
and calls `sys.exit(1)`; `none` in the second component means the call
returned normally and the process continues. -/
def build (b : Builder) (oracle : Oracle) (out_dir root_dir : Path) (lib_name : String) (extra_cmake_flags : Option (List String)) : List Event × Option ProcResult :=
  let flags := extra_cmake_flags.getD []
  let r := _build b oracle out_dir root_dir lib_name flags
  match r.2 with
  | Except.ok _ => (r.1, none)
  | Except.error _ => (r.1, some { exitCode := 1, banner := true })

/-- Lines 124-128: glob the `*.a` files of the directory and invoke the
static archiver `libtool` on all of them with one `-o` output. -/
def merge_libs_in_directory (b : Builder) (fs : List Path) (oracle : Oracle) (directory_path : Path) (out_lib_file_path : String) : List Event × Except PyError Unit :=
  let libs := (globDotA fs directory_path).map render
  let cmd := ["libtool", "-static", "-o", out_lib_file_path] ++ libs
  ([Event.exec cmd none], execute oracle cmd none)

/-- Lines 130-136: glob the `*.a` files of the directory and invoke the
universal-binary tool `lipo` on all of them with one `-o` output. -/
def create_universal_static_lib (b : Builder) (fs : List Path) (oracle : Oracle) (directory_path : Path) (out_lib_file_path : String) : List Event × Except PyError Unit :=
  let libs := (globDotA fs directory_path).map render
  let cmd := (["lipo", "-create"] ++ libs) ++ ["-o", out_lib_file_path]
  ([Event.exec cmd none], execute oracle cmd none)

/-- The platform loop of `merge_libs` (lines 57-61): merge the `*.a` files
of each platform install lib directory into one per-platform archive in the
intermediate directory. -/
def merge_loop (b : Builder) (fs : List Path) (oracle : Oracle) (out_dir platform_libs_path : Path) (lib_name : String) : List String → List Event × Except PyError Unit
  | [] => ([], Except.ok ())
  | platform :: rest =>
    let inst := platform_install_dir b out_dir platform
    let platform_merged_lib_file := render (platform_libs_path ++ [platform_lib_file b lib_name platform])
    let platform_lib_dir := inst ++ ["lib"]
    let step := merge_libs_in_directory b fs oracle platform_lib_dir platform_merged_lib_file
    match step.2 with
    | Except.error e => (step.1, Except.error e)
    | Except.ok _ =>
      let rest_result := merge_loop b fs oracle out_dir platform_libs_path lib_name rest
      (step.1 ++ rest_result.1, rest_result.2)

/-- Lines 50-70: `merge_libs` creates the intermediate directory, merges
the per-platform archives, and then, on line 65, evaluates
`os.makedirs(final_lib_path, exist_ok=True)`. The name `final_lib_path` is
bound nowhere in any enclosing scope, so at that point Python raises
`NameError`; lines 66-70 (the second `os.makedirs`, the
`create_universal_static_lib` call and the `shutil.copytree` call) are
unreachable. The pure path computations of lines 63-64 (`framework_path`,
`framework_include_path`) succeed and are reflected in
`merge_libs_framework_path` and `merge_libs_framework_include_path` below. -/
def merge_libs (b : Builder) (fs : List Path) (oracle : Oracle) (out_dir : Path) (lib_name : String) : List Event × Except PyError Unit :=
  let out_dir := os_path_abspath out_dir
  let platform_libs_path := out_dir ++ ["intermediate"]
  let loop := merge_loop b fs oracle out_dir platform_libs_path lib_name (get_platforms b)
  match loop.2 with
  | Except.error e => (Event.makedirs platform_libs_path :: loop.1, Except.error e)
  | Except.ok _ =>
    (Event.makedirs platform_libs_path :: loop.1, Except.error (PyError.nameError "final_lib_path"))

/-- Line 63: the framework directory path computed by `merge_libs`. -/
def merge_libs_framework_path (b : Builder) (out_dir : Path) (lib_name : String) : Path :=
  os_path_abspath out_dir ++ [lib_name ++ ".framework"]

/-- Line 64: the include subdirectory of the framework directory. -/
def merge_libs_framework_include_path (b : Builder) (out_dir : Path) (lib_name : String) : Path :=
  merge_libs_framework_path b out_dir lib_name ++ ["include"]

/-- Lines 69-70 as written: the source path of the `shutil.copytree`
statement of `merge_libs`, namely the include directory of the first
platform of `get_platforms` (`platforms[0]`). The statement itself is
unreachable at run time because of the `NameError` on line 65. -/
def merge_libs_copy_source (b : Builder) (out_dir : Path) : Path :=
  platform_install_dir b (os_path_abspath out_dir) ((get_platforms b).getD 0 "") ++ ["include"]

/-- The parsed command-line arguments (lines 139-144). -/
structure Args where
  out_dir : Path
  configuration : String
  bitcode_enabled : Bool
  deployment_target : String

/-- Lines 8-12. -/
def JANSSON_EXTRA_CMAKE_FLAGS : List String :=
  ["-DJANSSON_WITHOUT_TESTS=ON", "-DJANSSON_EXAMPLES=OFF", "-DJANSSON_BUILD_DOCS=OFF"]

/-- Lines 138-148: the `__main__` block after argument parsing. Each
`Builder.build` call terminates the process itself (exit status 1 with the
banner) when its `_build` raises; an exception escaping `merge_libs` is
uncaught, so the interpreter prints its own traceback and exits with
status 1 without the bordered banner; falling off the end exits with
status 0. -/
def main_run (fs : List Path) (oracle : Oracle) (args : Args) : List Event × ProcResult :=
  let b : Builder := ⟨args.configuration, args.bitcode_enabled, args.deployment_target⟩
  let r1 := build b oracle args.out_dir ["jansson"] "jansson" (some JANSSON_EXTRA_CMAKE_FLAGS)
  match r1.2 with
  | some res => (r1.1, res)
  | none =>
    let r2 := build b oracle args.out_dir ["lang", "c"] "avro" none
    match r2.2 with
    | some res => (r1.1 ++ r2.1, res)
    | none =>
      let r3 := merge_libs b fs oracle args.out_dir "avro"
      match r3.2 with
      | Except.ok _ => (r1.1 ++ r2.1 ++ r3.1, { exitCode := 0, banner := false })
      | Except.error _ => (r1.1 ++ r2.1 ++ r3.1, { exitCode := 1, banner := false })

/-! Helper lemmas about `execute`. -/

lemma execute_eq_ok (oracle : Oracle) (cmd : List String) (cwd : Option Path) (h : oracle cmd cwd = 0) : execute oracle cmd cwd = Except.ok () := by
  simp [execute, check_call, h]

lemma execute_eq_error (oracle : Oracle) (cmd : List String) (cwd : Option Path) (h : oracle cmd cwd ≠ 0) : execute oracle cmd cwd = Except.error (PyError.calledProcessError cmd (oracle cmd cwd)) := by
  simp [execute, check_call, h]

/-! Helper lemmas about `render`. -/

lemma render_cons_cons (c d : String) (rest : List String) : render (c :: d :: rest) = c ++ "/" ++ render (d :: rest) := rfl

lemma render_length_ge (n : String) : ∀ l : List String, n.length ≤ (render (l ++ [n])).length
  | [] => by simp [render]
  | c :: l2 => by
    obtain ⟨d, rest, hd⟩ : ∃ d rest, l2 ++ [n] = d :: rest := by
      cases l2 <;> exact ⟨_, _, rfl⟩
    rw [List.cons_append, hd, render_cons_cons, ← hd]
    rw [String.length_append, String.length_append]
    have h1 : ("/" : String).length = 1 := rfl
    have h2 := render_length_ge n l2
    omega

/-- A glob result is a path whose last component matches `*.a`. -/
lemma glob_mem_shape (fs : List Path) (dir : Path) (p : Path) (hp : p ∈ globDotA fs dir) : p.dropLast = dir ∧ globMatchDotA (p.getLast?.getD "") = true := by
  unfold globDotA at hp
  rw [List.mem_filter] at hp
  obtain ⟨-, hcond⟩ := hp
  rw [Bool.and_eq_true] at hcond
  obtain ⟨h1, h2⟩ := hcond
  exact ⟨by simpa using h1, h2⟩

/-- A name matching `*.a` has at least two characters. -/
lemma globMatch_length (s : String) (h : globMatchDotA s = true) : 2 ≤ s.length := by
  unfold globMatchDotA at h
  rw [Bool.and_eq_true] at h
  obtain ⟨-, h2⟩ := h
  rcases hrev : s.data.reverse with _ | ⟨c1, _ | ⟨c2, t⟩⟩ <;> rw [hrev] at h2 <;> simp_all
  have hlen : s.data.reverse.length = t.length + 2 := by rw [hrev]; simp
  have : s.length = s.data.length := rfl
  rw [List.length_reverse] at hlen
  omega

/-- A name matching `*.a` is not the literal flag "-o". -/
lemma globMatch_ne_dash_o (s : String) (h : globMatchDotA s = true) : s ≠ "-o" := by
  intro heq
  rw [heq] at h
  exact absurd h (by decide)

/-- A rendered glob result is never the literal flag "-o". -/
lemma render_glob_ne_dash_o (fs : List Path) (dir : Path) (p : Path) (hp : p ∈ globDotA fs dir) : render p ≠ "-o" := by
  obtain ⟨hdrop, hmatch⟩ := glob_mem_shape fs dir p hp
  have hne : p ≠ [] := by
    intro hnil
    rw [hnil] at hmatch
    exact absurd hmatch (by decide)
  obtain ⟨l, n, rfl⟩ : ∃ l n, p = l ++ [n] :=
    ⟨p.dropLast, p.getLast hne, (List.dropLast_append_getLast hne).symm⟩
  have hmatch2 : globMatchDotA n = true := by
    simpa [List.getLast?_concat] using hmatch
  rcases l with _ | ⟨c, l2⟩
  · simpa [render] using globMatch_ne_dash_o n hmatch2
  · intro heq
    have hlen2 : 2 ≤ n.length := globMatch_length _ hmatch2
    have hge : n.length ≤ (render (l2 ++ [n])).length := render_length_ge _ l2
    obtain ⟨d, rest, hd⟩ : ∃ d rest, l2 ++ [n] = d :: rest := by
      cases l2 <;> exact ⟨_, _, rfl⟩
    rw [List.cons_append, hd, render_cons_cons, ← hd] at heq
    have hlenp : (c ++ "/" ++ render (l2 ++ [n])).length = c.length + 1 + (render (l2 ++ [n])).length := by
      rw [String.length_append, String.length_append]
      rfl
    have hcontra : (c ++ "/" ++ render (l2 ++ [n])).length = ("-o" : String).length := congrArg String.length heq
    have h2 : ("-o" : String).length = 2 := rfl
    omega

/-- The last component of the framework directory differs from the name of
the intermediate directory. -/
lemma framework_ne_intermediate (s : String) : s ++ ".framework" ≠ "intermediate" := by
  intro h
  have hd : (s ++ ".framework").data = "intermediate".data := congrArg String.data h
  rw [String.data_append] at hd
  have hlast : (s.data ++ ".framework".data).getLast? = "intermediate".data.getLast? := congrArg List.getLast? hd
  rw [List.getLast?_append_of_ne_nil _ (by decide)] at hlast
  exact absurd hlast (by decide)

/-! Helper lemmas about the merge traces. -/

/-- Every event recorded by the merge loop is a command execution. -/
lemma merge_loop_events (b : Builder) (fs : List Path) (oracle : Oracle) (out_dir plp : Path) (lib_name : String) : ∀ (plats : List String) (e : Event), e ∈ (merge_loop b fs oracle out_dir plp lib_name plats).1 → ∃ c w, e = Event.exec c w
  | [], e => by simp [merge_loop]
  | platform :: rest, e => by
    intro hmem
    simp only [merge_loop, merge_libs_in_directory] at hmem
    split at hmem
    · simp at hmem
      exact ⟨_, _, hmem⟩
    · rw [List.cons_append, List.nil_append, List.mem_cons] at hmem
      rcases hmem with h | h
      · exact ⟨_, _, h⟩
      · exact merge_loop_events b fs oracle out_dir plp lib_name rest e h

/-- The trace of `merge_libs` is the creation of the intermediate
directory followed by the events of the merge loop, whatever the outcome. -/
lemma merge_libs_trace (b : Builder) (fs : List Path) (oracle : Oracle) (out_dir : Path) (lib_name : String) :
    (merge_libs b fs oracle out_dir lib_name).1
      = Event.makedirs (os_path_abspath out_dir ++ ["intermediate"])
          :: (merge_loop b fs oracle (os_path_abspath out_dir) (os_path_abspath out_dir ++ ["intermediate"]) lib_name (get_platforms b)).1 := by
  simp only [merge_libs]
  split <;> rfl

/-- The result of `merge_libs` is always an exception: either an external
command of the merge loop failed, or the unbound name on line 65 is
reached. -/
lemma merge_libs_raises (b : Builder) (fs : List Path) (oracle : Oracle) (out_dir : Path) (lib_name : String) : ∃ e, (merge_libs b fs oracle out_dir lib_name).2 = Except.error e := by
  simp only [merge_libs]
  split
  · exact ⟨_, rfl⟩
  · exact ⟨_, rfl⟩

/-- When every external command succeeds, the merge loop over the two
platforms merges each platform lib directory and succeeds. -/
lemma merge_loop_of_success (b : Builder) (fs : List Path) (oracle : Oracle) (out_dir plp : Path) (lib_name : String) (h : ∀ c w, oracle c w = 0) :
    merge_loop b fs oracle out_dir plp lib_name (get_platforms b)
      = ([Event.exec (["libtool", "-static", "-o", render (plp ++ [platform_lib_file b lib_name "SIMULATOR64"])] ++ (globDotA fs (out_dir ++ ["SIMULATOR64", "lib"])).map render) none,
          Event.exec (["libtool", "-static", "-o", render (plp ++ [platform_lib_file b lib_name "OS64"])] ++ (globDotA fs (out_dir ++ ["OS64", "lib"])).map render) none],
         Except.ok ()) := by
  simp [merge_loop, merge_libs_in_directory, get_platforms, platform_install_dir, execute, check_call, h]

/-- When every external command succeeds, `merge_libs` raises exactly the
`NameError` for `final_lib_path`. -/
lemma merge_libs_of_success (b : Builder) (fs : List Path) (oracle : Oracle) (out_dir : Path) (lib_name : String) (h : ∀ c w, oracle c w = 0) :
    (merge_libs b fs oracle out_dir lib_name).2 = Except.error (PyError.nameError "final_lib_path") := by
  simp only [merge_libs]
  rw [merge_loop_of_success b fs oracle _ _ lib_name h]

/-! Helper lemmas about the build traces. -/

/-- `build_platform` begins by setting PKG_CONFIG_PATH. -/
lemma build_platform_head (b : Builder) (oracle : Oracle) (platform : String) (build_dir install_dir root_dir : Path) (extra : List String) :
    (build_platform b oracle platform build_dir install_dir root_dir extra).1.head?
      = some (Event.setEnv "PKG_CONFIG_PATH" (render (install_dir ++ ["lib", "pkgconfig"]))) := by
  simp only [build_platform]
  split
  · rfl
  · split <;> rfl

/-- The only environment mutation recorded by `build_platform` is the
PKG_CONFIG_PATH assignment for its install directory. -/
lemma build_platform_setEnv (b : Builder) (oracle : Oracle) (platform : String) (build_dir install_dir root_dir : Path) (extra : List String) (k v : String) (hmem : Event.setEnv k v ∈ (build_platform b oracle platform build_dir install_dir root_dir extra).1) :
    k = "PKG_CONFIG_PATH" ∧ v = render (install_dir ++ ["lib", "pkgconfig"]) := by
  simp only [build_platform] at hmem
  split at hmem
  · simp at hmem
    exact hmem
  · split at hmem <;> simp at hmem <;> exact hmem

/-- Environment mutations of the platform loop: one PKG_CONFIG_PATH
assignment per visited platform, pointing into that platform install
directory. -/
lemma build_loop_setEnv (b : Builder) (oracle : Oracle) (out_dir build_path root_dir : Path) (extra : List String) : ∀ (plats : List String) (k v : String), Event.setEnv k v ∈ (build_loop b oracle out_dir build_path root_dir extra plats).1 → ∃ p ∈ plats, k = "PKG_CONFIG_PATH" ∧ v = render (out_dir ++ [p] ++ ["lib", "pkgconfig"])
  | [], k, v => by simp [build_loop]
  | platform :: rest, k, v => by
    intro hmem
    simp only [build_loop] at hmem
    split at hmem
    · rw [List.mem_cons] at hmem
      rcases hmem with h | h
      · exact absurd h (by simp)
      · obtain ⟨hk, hv⟩ := build_platform_setEnv b oracle platform _ _ _ _ k v h
        exact ⟨platform, by simp, hk, hv⟩
    · rw [List.mem_cons, List.mem_append] at hmem
      rcases hmem with h | h | h
      · exact absurd h (by simp)
      · obtain ⟨hk, hv⟩ := build_platform_setEnv b oracle platform _ _ _ _ k v h
        exact ⟨platform, by simp, hk, hv⟩
      · obtain ⟨p, hp, hk, hv⟩ := build_loop_setEnv b oracle out_dir build_path root_dir extra rest k v h
        exact ⟨p, by simp [hp], hk, hv⟩

/-- Environment mutations of `_build`. -/
lemma _build_setEnv (b : Builder) (oracle : Oracle) (out_dir root_dir : Path) (lib_name : String) (extra : List String) (k v : String) (hmem : Event.setEnv k v ∈ (_build b oracle out_dir root_dir lib_name extra).1) :
    ∃ p ∈ get_platforms b, k = "PKG_CONFIG_PATH" ∧ v = render (os_path_abspath out_dir ++ [p] ++ ["lib", "pkgconfig"]) := by
  simp only [_build, List.mem_cons] at hmem
  rcases hmem with h | h
  · exact absurd h (by simp)
  · exact build_loop_setEnv b oracle _ _ _ extra (get_platforms b) k v h

/-- The trace of `build` is the trace of the underlying `_build`. -/
lemma build_trace (b : Builder) (oracle : Oracle) (out_dir root_dir : Path) (lib_name : String) (extra : Option (List String)) :
    (build b oracle out_dir root_dir lib_name extra).1 = (_build b oracle out_dir root_dir lib_name (extra.getD [])).1 := by
  simp only [build]
  split <;> rfl

/-- When `build` terminates the process, the exit status is 1 and the
bordered banner was printed. -/
lemma build_some (b : Builder) (oracle : Oracle) (out_dir root_dir : Path) (lib_name : String) (extra : Option (List String)) (res : ProcResult) (h : (build b oracle out_dir root_dir lib_name extra).2 = some res) :
    res = { exitCode := 1, banner := true } := by
  simp only [build] at h
  split at h
  · exact absurd h (by simp)
  · simp at h
    exact h.symm

/-- Environment mutations of `build`: PKG_CONFIG_PATH, set to the
lib/pkgconfig subdirectory of one of the two platform install
directories. -/
lemma build_setEnv (b : Builder) (oracle : Oracle) (out_dir root_dir : Path) (lib_name : String) (extra : Option (List String)) (k v : String) (hmem : Event.setEnv k v ∈ (build b oracle out_dir root_dir lib_name extra).1) :
    k = "PKG_CONFIG_PATH" ∧ (v = render (os_path_abspath out_dir ++ ["SIMULATOR64"] ++ ["lib", "pkgconfig"]) ∨ v = render (os_path_abspath out_dir ++ ["OS64"] ++ ["lib", "pkgconfig"])) := by
  rw [build_trace] at hmem
  obtain ⟨p, hp, hk, hv⟩ := _build_setEnv b oracle out_dir root_dir lib_name (extra.getD []) k v hmem
  have hp2 : p = "SIMULATOR64" ∨ p = "OS64" := by simpa [get_platforms] using hp
  refine ⟨hk, ?_⟩
  rcases hp2 with h | h
  · exact Or.inl (by rw [hv, h])
  · exact Or.inr (by rw [hv, h])

/-- The merge step never mutates the environment. -/
lemma merge_libs_no_setEnv (b : Builder) (fs : List Path) (oracle : Oracle) (out_dir : Path) (lib_name : String) (k v : String) : Event.setEnv k v ∉ (merge_libs b fs oracle out_dir lib_name).1 := by
  rw [merge_libs_trace, List.mem_cons]
  rintro (h | h)
  · exact absurd h (by simp)
  · obtain ⟨c, w, hc⟩ := merge_loop_events b fs oracle _ _ lib_name (get_platforms b) _ h
    exact absurd hc (by simp)

/-- Environment mutations of the whole program run. -/
lemma main_run_setEnv (fs : List Path) (oracle : Oracle) (args : Args) (k v : String) (hmem : Event.setEnv k v ∈ (main_run fs oracle args).1) :
    k = "PKG_CONFIG_PATH" ∧ (v = render (os_path_abspath args.out_dir ++ ["SIMULATOR64"] ++ ["lib", "pkgconfig"]) ∨ v = render (os_path_abspath args.out_dir ++ ["OS64"] ++ ["lib", "pkgconfig"])) := by
  simp only [main_run] at hmem
  split at hmem
  · exact build_setEnv _ oracle args.out_dir _ _ _ k v hmem
  · split at hmem
    · rw [List.mem_append] at hmem
      rcases hmem with h | h
      · exact build_setEnv _ oracle args.out_dir _ _ _ k v h
      · exact build_setEnv _ oracle args.out_dir _ _ _ k v h
    · split at hmem <;> rw [List.mem_append, List.mem_append] at hmem <;>
        rcases hmem with (h | h) | h
      · exact build_setEnv _ oracle args.out_dir _ _ _ k v h
      · exact build_setEnv _ oracle args.out_dir _ _ _ k v h
      · exact absurd h (merge_libs_no_setEnv _ fs oracle args.out_dir _ k v)
      · exact build_setEnv _ oracle args.out_dir _ _ _ k v h
      · exact build_setEnv _ oracle args.out_dir _ _ _ k v h
      · exact absurd h (merge_libs_no_setEnv _ fs oracle args.out_dir _ k v)

/-- The process never exits with status 0: either a build step fails, or
the merge step raises. -/
lemma main_run_exit (fs : List Path) (oracle : Oracle) (args : Args) : (main_run fs oracle args).2.exitCode = 1 := by
  simp only [main_run]
  split
  next res h => rw [build_some _ _ _ _ _ _ res h]
  next h =>
    split
    next res h2 => rw [build_some _ _ _ _ _ _ res h2]
    next h2 =>
      split
      next u h3 =>
        obtain ⟨e, he⟩ := merge_libs_raises ⟨args.configuration, args.bitcode_enabled, args.deployment_target⟩ fs oracle args.out_dir "avro"
        rw [he] at h3
        exact absurd h3 (by simp)
      next e h3 => rfl

/-- When both build steps return normally, the run ends in the merge step:
the exception escaping `merge_libs` is uncaught, so the process exits with
status 1 and without the bordered banner. -/
lemma main_run_merge_branch (fs : List Path) (oracle : Oracle) (args : Args) (h1 : (build ⟨args.configuration, args.bitcode_enabled, args.deployment_target⟩ oracle args.out_dir ["jansson"] "jansson" (some JANSSON_EXTRA_CMAKE_FLAGS)).2 = none) (h2 : (build ⟨args.configuration, args.bitcode_enabled, args.deployment_target⟩ oracle args.out_dir ["lang", "c"] "avro" none).2 = none) :
    (main_run fs oracle args).2 = { exitCode := 1, banner := false } := by
  obtain ⟨e, he⟩ := merge_libs_raises ⟨args.configuration, args.bitcode_enabled, args.deployment_target⟩ fs oracle args.out_dir "avro"
  simp only [main_run, h1, h2, he]

/-! Concrete fixtures for witnesses and counterexamples. -/

/-- An environment in which every external command succeeds. -/
def oracle0 : Oracle := fun _ _ => 0

/-- An environment in which exactly the libtool invocations fail. -/
def libtoolFailOracle : Oracle := fun cmd _ => if cmd.headD "" = "libtool" then 1 else 0

/-- An environment in which every external command fails. -/
def failOracle : Oracle := fun _ _ => 1

/-- A concrete builder configuration. -/
def b0 : Builder := ⟨"Release", false, "13.0"⟩

/-- Concrete parsed command-line arguments. -/
def args0 : Args := ⟨["out"], "Release", false, "13.0"⟩

/-- A snapshot with two static libraries in directory d. -/
def fs1 : List Path := [["d", "l1.a"], ["d", "l2.a"]]

/-- A snapshot of a completed build: per-platform libraries and headers
installed for both platforms. -/
def fs2 : List Path :=
  [["out", "SIMULATOR64", "lib", "libavro.a"],
   ["out", "OS64", "lib", "libavro.a"],
   ["out", "SIMULATOR64", "include", "avro.h"],
   ["out", "OS64", "include", "avro.h"]]

/-! The claims. -/

/-- C1: for every output directory and library name, whenever the
per-platform merges succeed the merge routine reaches the references to
the unbound names of line 65 and raises the undefined-name error for
`final_lib_path`; and in no run does it create the final framework
directory or its include subdirectory. -/
theorem C1_merge_raises_undefined_name (b : Builder) (fs : List Path) (oracle : Oracle) (out_dir : Path) (lib_name : String) :
    ((∀ c w, oracle c w = 0) → (merge_libs b fs oracle out_dir lib_name).2 = Except.error (PyError.nameError "final_lib_path"))
    ∧ Event.makedirs (merge_libs_framework_path b out_dir lib_name) ∉ (merge_libs b fs oracle out_dir lib_name).1
    ∧ Event.makedirs (merge_libs_framework_include_path b out_dir lib_name) ∉ (merge_libs b fs oracle out_dir lib_name).1 := by
  refine ⟨fun h => merge_libs_of_success b fs oracle out_dir lib_name h, ?_, ?_⟩
  · rw [merge_libs_trace, List.mem_cons]
    rintro (h | h)
    · have h2 : os_path_abspath out_dir ++ [lib_name ++ ".framework"] = os_path_abspath out_dir ++ ["intermediate"] := by
        simpa [merge_libs_framework_path] using h
      have h3 := List.append_cancel_left h2
      simp only [List.cons.injEq, and_true] at h3
      exact framework_ne_intermediate lib_name h3
    · obtain ⟨c, w, hc⟩ := merge_loop_events b fs oracle _ _ lib_name (get_platforms b) _ h
      exact absurd hc (by simp)
  · rw [merge_libs_trace, List.mem_cons]
    rintro (h | h)
    · have h2 : os_path_abspath out_dir ++ [lib_name ++ ".framework", "include"] = os_path_abspath out_dir ++ ["intermediate"] := by
        simpa [merge_libs_framework_include_path, merge_libs_framework_path] using h
      have h3 := congrArg List.length h2
      simp at h3
    · obtain ⟨c, w, hc⟩ := merge_loop_events b fs oracle _ _ lib_name (get_platforms b) _ h
      exact absurd hc (by simp)

/-- Witness for C1 at a concrete input. -/
theorem C1_witness :
    (merge_libs b0 [] oracle0 ["out"] "avro").2 = Except.error (PyError.nameError "final_lib_path")
    ∧ Event.makedirs (merge_libs_framework_path b0 ["out"] "avro") ∉ (merge_libs b0 [] oracle0 ["out"] "avro").1
    ∧ Event.makedirs (merge_libs_framework_include_path b0 ["out"] "avro") ∉ (merge_libs b0 [] oracle0 ["out"] "avro").1 :=
  ⟨(C1_merge_raises_undefined_name b0 [] oracle0 ["out"] "avro").1 (fun _ _ => rfl),
   (C1_merge_raises_undefined_name b0 [] oracle0 ["out"] "avro").2.1,
   (C1_merge_raises_undefined_name b0 [] oracle0 ["out"] "avro").2.2⟩

/-- C2 counterexample: with every cmake command succeeding and the libtool
invocation exiting non-zero, an external command fails during the merge
step (its invocation is in the trace and its exit status is 1), the
process exits with status 1, but no bordered error banner is printed —
refuting the claim that every non-zero external exit comes with the
banner. -/
theorem C2_counterexample :
    (main_run [] libtoolFailOracle args0).2 = { exitCode := 1, banner := false }
    ∧ Event.exec ["libtool", "-static", "-o", "out/intermediate/avro_SIMULATOR64.a"] none ∈ (main_run [] libtoolFailOracle args0).1
    ∧ libtoolFailOracle ["libtool", "-static", "-o", "out/intermediate/avro_SIMULATOR64.a"] none = 1 := by
  decide

/-- C2 amended: a non-zero external exit during a build step makes the
driver print the bordered banner and exit with status 1; when both build
steps return normally the merge step raises, the exception is uncaught, and
the process exits with status 1 without the banner; in every run the
process exit status is 1. -/
theorem C2_exit_code_and_banner :
    (∀ (b : Builder) (oracle : Oracle) (out_dir root_dir : Path) (lib_name : String) (extra : Option (List String)) (res : ProcResult),
        (build b oracle out_dir root_dir lib_name extra).2 = some res → res = { exitCode := 1, banner := true })
    ∧ (∀ (fs : List Path) (oracle : Oracle) (args : Args),
        (build ⟨args.configuration, args.bitcode_enabled, args.deployment_target⟩ oracle args.out_dir ["jansson"] "jansson" (some JANSSON_EXTRA_CMAKE_FLAGS)).2 = none →
        (build ⟨args.configuration, args.bitcode_enabled, args.deployment_target⟩ oracle args.out_dir ["lang", "c"] "avro" none).2 = none →
        (main_run fs oracle args).2 = { exitCode := 1, banner := false })
    ∧ (∀ (fs : List Path) (oracle : Oracle) (args : Args), (main_run fs oracle args).2.exitCode = 1) :=
  ⟨build_some, main_run_merge_branch, main_run_exit⟩

/-- Witness for C2 amended at a concrete input. -/
theorem C2_witness : (main_run [] oracle0 args0).2 = { exitCode := 1, banner := false } :=
  C2_exit_code_and_banner.2.1 [] oracle0 args0 (by decide) (by decide)

/-- C3 counterexample: with no filesystem entry at all (so the platform
install directory does not exist) and every external command succeeding,
the per-platform merge step completes without raising any error — the glob
is empty and libtool is invoked with zero inputs — and the merge routine
raises the undefined-name error, not a file-not-found error. -/
theorem C3_counterexample :
    globDotA ([] : List Path) ["out", "SIMULATOR64", "lib"] = []
    ∧ (merge_libs_in_directory b0 [] oracle0 ["out", "SIMULATOR64", "lib"] "m.a").2 = Except.ok ()
    ∧ (merge_libs b0 [] oracle0 ["out"] "avro").2 = Except.error (PyError.nameError "final_lib_path") := by
  decide

/-- C3 amended: when a platform install directory does not exist (no
filesystem entry lies under it), the per-platform merge step does not
raise a file-not-found error: the glob yields the empty list, the archiver
is invoked with zero input paths, and the step raises exactly when the
external archiver itself exits non-zero. -/
theorem C3_missing_dir_empty_glob (b : Builder) (fs : List Path) (oracle : Oracle) (install_dir : Path) (out : String) (h : ∀ p ∈ fs, ¬ install_dir <+: p) :
    (merge_libs_in_directory b fs oracle (install_dir ++ ["lib"]) out).1 = [Event.exec ["libtool", "-static", "-o", out] none]
    ∧ ((merge_libs_in_directory b fs oracle (install_dir ++ ["lib"]) out).2 = Except.ok ()
        ↔ oracle ["libtool", "-static", "-o", out] none = 0) := by
  have hglob : globDotA fs (install_dir ++ ["lib"]) = [] := by
    unfold globDotA
    rw [List.filter_eq_nil_iff]
    intro p hp hcond
    rw [Bool.and_eq_true] at hcond
    have hdrop : p.dropLast = install_dir ++ ["lib"] := by simpa using hcond.1
    apply h p hp
    have hpre : install_dir <+: p.dropLast := hdrop ▸ List.prefix_append install_dir ["lib"]
    exact hpre.trans (List.dropLast_prefix p)
  constructor
  · simp [merge_libs_in_directory, hglob]
  · simp only [merge_libs_in_directory, hglob, List.map_nil, List.append_nil]
    unfold execute check_call
    by_cases h2 : oracle ["libtool", "-static", "-o", out] none = 0 <;> simp [h2]

/-- Witness for C3 amended at a concrete input. -/
theorem C3_witness :
    (merge_libs_in_directory b0 [] oracle0 (["out", "SIMULATOR64"] ++ ["lib"]) "m.a").1 = [Event.exec ["libtool", "-static", "-o", "m.a"] none]
    ∧ ((merge_libs_in_directory b0 [] oracle0 (["out", "SIMULATOR64"] ++ ["lib"]) "m.a").2 = Except.ok ()
        ↔ oracle0 ["libtool", "-static", "-o", "m.a"] none = 0) :=
  C3_missing_dir_empty_glob b0 [] oracle0 ["out", "SIMULATOR64"] "m.a" (by simp)

/-- C4: the project-generation command contains the literal substitutions
for the platform, the deployment target, and the bitcode switch. -/
theorem C4_generate_command_flags (b : Builder) (platform : String) (install_dir root_dir : Path) (extra_flags : List String) :
    ("-DPLATFORM=" ++ platform) ∈ get_cmake_xcode_generate_command b platform install_dir root_dir extra_flags
    ∧ ("-DDEPLOYMENT_TARGET=" ++ b.deployment_target) ∈ get_cmake_xcode_generate_command b platform install_dir root_dir extra_flags
    ∧ (if b.bitcode_enabled then ("-DENABLE_BITCODE=ON" : String) ∈ get_cmake_xcode_generate_command b platform install_dir root_dir extra_flags
       else ("-DENABLE_BITCODE=OFF" : String) ∈ get_cmake_xcode_generate_command b platform install_dir root_dir extra_flags) := by
  refine ⟨by simp [get_cmake_xcode_generate_command], by simp [get_cmake_xcode_generate_command], ?_⟩
  cases hb : b.bitcode_enabled <;> simp [get_cmake_xcode_generate_command, hb]

/-- C5: the per-platform merge invokes the static archiver on exactly the
glob of the directory: the executed command lists every static library of
the directory as an input and carries exactly one output flag. -/
theorem C5_archiver_all_inputs (b : Builder) (fs : List Path) (oracle : Oracle) (directory_path : Path) (out_lib_file_path : String) (hout : out_lib_file_path ≠ "-o") :
    merge_libs_in_directory b fs oracle directory_path out_lib_file_path
      = ([Event.exec (["libtool", "-static", "-o", out_lib_file_path] ++ (globDotA fs directory_path).map render) none],
         execute oracle (["libtool", "-static", "-o", out_lib_file_path] ++ (globDotA fs directory_path).map render) none)
    ∧ (∀ l ∈ globDotA fs directory_path, render l ∈ ["libtool", "-static", "-o", out_lib_file_path] ++ (globDotA fs directory_path).map render)
    ∧ (["libtool", "-static", "-o", out_lib_file_path] ++ (globDotA fs directory_path).map render).count "-o" = 1 := by
  refine ⟨rfl, ?_, ?_⟩
  · intro l hl
    exact List.mem_append_right _ (List.mem_map_of_mem render hl)
  · rw [List.count_append]
    have h0 : ((globDotA fs directory_path).map render).count "-o" = 0 := by
      rw [List.count_eq_zero]
      intro hmem
      rw [List.mem_map] at hmem
      obtain ⟨l, hl, hrl⟩ := hmem
      exact render_glob_ne_dash_o fs directory_path l hl hrl
    rw [h0]
    simp [List.count_cons, hout]

/-- Witness for C5 at a concrete input: a directory with two libraries. -/
theorem C5_witness :
    render ["d", "l1.a"] ∈ ["libtool", "-static", "-o", "o.a"] ++ (globDotA fs1 ["d"]).map render
    ∧ (["libtool", "-static", "-o", "o.a"] ++ (globDotA fs1 ["d"]).map render).count "-o" = 1 :=
  ⟨(C5_archiver_all_inputs b0 fs1 oracle0 ["d"] "o.a" (by decide)).2.1 ["d", "l1.a"] (by decide),
   (C5_archiver_all_inputs b0 fs1 oracle0 ["d"] "o.a" (by decide)).2.2⟩

/-- C6: with the two per-platform merged archives present in the directory,
the universal-binary step invokes lipo with both archives as inputs and
exactly one output flag. -/
theorem C6_lipo_two_inputs (b : Builder) (fs : List Path) (oracle : Oracle) (directory_path : Path) (out : String) (a1 a2 : Path) (hglob : globDotA fs directory_path = [a1, a2]) (hout : out ≠ "-o") :
    create_universal_static_lib b fs oracle directory_path out
      = ([Event.exec ["lipo", "-create", render a1, render a2, "-o", out] none],
         execute oracle ["lipo", "-create", render a1, render a2, "-o", out] none)
    ∧ (["lipo", "-create", render a1, render a2, "-o", out] : List String).count "-o" = 1 := by
  have h1 : render a1 ≠ "-o" := render_glob_ne_dash_o fs directory_path a1 (by rw [hglob]; simp)
  have h2 : render a2 ≠ "-o" := render_glob_ne_dash_o fs directory_path a2 (by rw [hglob]; simp)
  constructor
  · simp [create_universal_static_lib, hglob]
  · simp [List.count_cons, h1, h2, hout]

/-- Witness for C6 at a concrete input. -/
theorem C6_witness :
    (["lipo", "-create", render ["d", "l1.a"], render ["d", "l2.a"], "-o", "u.a"] : List String).count "-o" = 1 :=
  (C6_lipo_two_inputs b0 fs1 oracle0 ["d"] "u.a" ["d", "l1.a"] ["d", "l2.a"] (by decide) (by decide)).2

/-- C7: when every external command succeeds, the build driver iterates
over exactly the two platforms, simulator first; for each platform it
creates the platform build directory, then (after setting the pkg-config
path) runs the generation command and then the build-and-install command,
whose target is install. -/
theorem C7_build_iterates_platforms (b : Builder) (oracle : Oracle) (out_dir root_dir : Path) (lib_name : String) (extra : List String) (h : ∀ c w, oracle c w = 0) :
    get_platforms b = ["SIMULATOR64", "OS64"]
    ∧ get_cmake_build_command b = ["cmake", "--build", ".", "--clean-first", "--config", b.configuration, "--target", "install"]
    ∧ (_build b oracle out_dir root_dir lib_name extra).1
        = [Event.makedirs (os_path_abspath out_dir),
           Event.makedirs (os_path_abspath out_dir ++ [lib_name, "build", "SIMULATOR64"]),
           Event.setEnv "PKG_CONFIG_PATH" (render (os_path_abspath out_dir ++ ["SIMULATOR64", "lib", "pkgconfig"])),
           Event.exec (get_cmake_xcode_generate_command b "SIMULATOR64" (os_path_abspath out_dir ++ ["SIMULATOR64"]) (get_path_relative_to_script b root_dir) extra) (some (os_path_abspath out_dir ++ [lib_name, "build", "SIMULATOR64"])),
           Event.exec (get_cmake_build_command b) (some (os_path_abspath out_dir ++ [lib_name, "build", "SIMULATOR64"])),
           Event.makedirs (os_path_abspath out_dir ++ [lib_name, "build", "OS64"]),
           Event.setEnv "PKG_CONFIG_PATH" (render (os_path_abspath out_dir ++ ["OS64", "lib", "pkgconfig"])),
           Event.exec (get_cmake_xcode_generate_command b "OS64" (os_path_abspath out_dir ++ ["OS64"]) (get_path_relative_to_script b root_dir) extra) (some (os_path_abspath out_dir ++ [lib_name, "build", "OS64"])),
           Event.exec (get_cmake_build_command b) (some (os_path_abspath out_dir ++ [lib_name, "build", "OS64"]))] := by
  refine ⟨rfl, rfl, ?_⟩
  simp [_build, build_loop, build_platform, get_platforms, execute, check_call, h, List.append_assoc]

/-- Witness for C7 at a concrete input. -/
theorem C7_witness :
    get_platforms b0 = ["SIMULATOR64", "OS64"]
    ∧ get_cmake_build_command b0 = ["cmake", "--build", ".", "--clean-first", "--config", b0.configuration, "--target", "install"]
    ∧ (_build b0 oracle0 ["out"] ["jansson"] "jansson" []).1
        = [Event.makedirs (os_path_abspath ["out"]),
           Event.makedirs (os_path_abspath ["out"] ++ ["jansson", "build", "SIMULATOR64"]),
           Event.setEnv "PKG_CONFIG_PATH" (render (os_path_abspath ["out"] ++ ["SIMULATOR64", "lib", "pkgconfig"])),
           Event.exec (get_cmake_xcode_generate_command b0 "SIMULATOR64" (os_path_abspath ["out"] ++ ["SIMULATOR64"]) (get_path_relative_to_script b0 ["jansson"]) []) (some (os_path_abspath ["out"] ++ ["jansson", "build", "SIMULATOR64"])),
           Event.exec (get_cmake_build_command b0) (some (os_path_abspath ["out"] ++ ["jansson", "build", "SIMULATOR64"])),
           Event.makedirs (os_path_abspath ["out"] ++ ["jansson", "build", "OS64"]),
           Event.setEnv "PKG_CONFIG_PATH" (render (os_path_abspath ["out"] ++ ["OS64", "lib", "pkgconfig"])),
           Event.exec (get_cmake_xcode_generate_command b0 "OS64" (os_path_abspath ["out"] ++ ["OS64"]) (get_path_relative_to_script b0 ["jansson"]) []) (some (os_path_abspath ["out"] ++ ["jansson", "build", "OS64"])),
           Event.exec (get_cmake_build_command b0) (some (os_path_abspath ["out"] ++ ["jansson", "build", "OS64"]))] :=
  C7_build_iterates_platforms b0 oracle0 ["out"] ["jansson"] "jansson" [] (fun _ _ => rfl)

/-- C8: every environment mutation of the whole program is the
PKG_CONFIG_PATH assignment, whose value is the lib/pkgconfig subdirectory
of one of the two platform install directories; and each per-platform
build begins with that assignment for its own platform. -/
theorem C8_pkg_config_env :
    (∀ (fs : List Path) (oracle : Oracle) (args : Args) (k v : String),
        Event.setEnv k v ∈ (main_run fs oracle args).1 →
        k = "PKG_CONFIG_PATH"
        ∧ (v = render (os_path_abspath args.out_dir ++ ["SIMULATOR64"] ++ ["lib", "pkgconfig"])
           ∨ v = render (os_path_abspath args.out_dir ++ ["OS64"] ++ ["lib", "pkgconfig"])))
    ∧ ∀ (b : Builder) (oracle : Oracle) (platform : String) (build_dir install_dir root_dir : Path) (extra : List String),
        (build_platform b oracle platform build_dir install_dir root_dir extra).1.head?
          = some (Event.setEnv "PKG_CONFIG_PATH" (render (install_dir ++ ["lib", "pkgconfig"]))) :=
  ⟨main_run_setEnv, build_platform_head⟩

/-- Witness for C8 at a concrete input: a PKG_CONFIG_PATH mutation present
in a concrete run. -/
theorem C8_witness :
    "PKG_CONFIG_PATH" = "PKG_CONFIG_PATH"
    ∧ (render (os_path_abspath args0.out_dir ++ ["SIMULATOR64"] ++ ["lib", "pkgconfig"]) = render (os_path_abspath args0.out_dir ++ ["SIMULATOR64"] ++ ["lib", "pkgconfig"])
       ∨ render (os_path_abspath args0.out_dir ++ ["SIMULATOR64"] ++ ["lib", "pkgconfig"]) = render (os_path_abspath args0.out_dir ++ ["OS64"] ++ ["lib", "pkgconfig"])) :=
  C8_pkg_config_env.1 [] oracle0 args0 "PKG_CONFIG_PATH" (render (os_path_abspath args0.out_dir ++ ["SIMULATOR64"] ++ ["lib", "pkgconfig"])) (by decide)

/-- C9: the explicit non-zero-return branch of `execute` is dead code:
`check_call` raises `CalledProcessError` itself on every non-zero exit and
returns 0 otherwise, so `execute` returns normally exactly on exit status
0, raises `CalledProcessError` exactly on non-zero status, and never
raises the `Exception("Child returned:", retcode)` of line 19. -/
theorem C9_execute_semantics (oracle : Oracle) (cmd : List String) (cwd : Option Path) :
    (oracle cmd cwd = 0 → execute oracle cmd cwd = Except.ok ())
    ∧ (oracle cmd cwd ≠ 0 → execute oracle cmd cwd = Except.error (PyError.calledProcessError cmd (oracle cmd cwd)))
    ∧ ∀ rc : Nat, execute oracle cmd cwd ≠ Except.error (PyError.childReturned rc) := by
  refine ⟨execute_eq_ok oracle cmd cwd, execute_eq_error oracle cmd cwd, fun rc => ?_⟩
  by_cases h : oracle cmd cwd = 0
  · rw [execute_eq_ok oracle cmd cwd h]
    simp
  · rw [execute_eq_error oracle cmd cwd h]
    simp

/-- Witness for C9 at concrete inputs: both sides of the dichotomy. -/
theorem C9_witness :
    execute oracle0 ["cmake"] none = Except.ok ()
    ∧ execute failOracle ["cmake"] none = Except.error (PyError.calledProcessError ["cmake"] 1) :=
  ⟨(C9_execute_semantics oracle0 ["cmake"] none).1 rfl,
   (C9_execute_semantics failOracle ["cmake"] none).2.1 (by decide)⟩

/-- C10 counterexample: on a completed build snapshot, with every external
command succeeding, the merge step records no copy event at all — the
undefined-name error aborts it first — so no include tree is copied from
anywhere, refuting the claim that the framework include tree is copied
from the first platform install include directory. -/
theorem C10_counterexample :
    (merge_libs b0 fs2 oracle0 ["out"] "avro").1.filter Event.isCopytree = []
    ∧ (merge_libs b0 fs2 oracle0 ["out"] "avro").2 = Except.error (PyError.nameError "final_lib_path") := by
  decide

/-- C10 amended: the merge step never copies anything (the copy statement
of line 70 is unreachable because of the undefined-name error), and the
copy statement as written takes its source exclusively from the include
directory of the first platform (SIMULATOR64), never from OS64. -/
theorem C10_copy_source_simulator_only :
    (∀ (b : Builder) (fs : List Path) (oracle : Oracle) (out_dir : Path) (lib_name : String),
        ∀ e ∈ (merge_libs b fs oracle out_dir lib_name).1, e.isCopytree = false)
    ∧ ∀ (b : Builder) (out_dir : Path), merge_libs_copy_source b out_dir = os_path_abspath out_dir ++ ["SIMULATOR64", "include"] := by
  constructor
  · intro b fs oracle out_dir lib_name e he
    rw [merge_libs_trace, List.mem_cons] at he
    rcases he with h | h
    · rw [h]
      rfl
    · obtain ⟨c, w, hc⟩ := merge_loop_events b fs oracle _ _ lib_name (get_platforms b) _ h
      rw [hc]
      rfl
  · intro b out_dir
    simp [merge_libs_copy_source, platform_install_dir, get_platforms, List.append_assoc]

/-- Witness for C10 amended at a concrete event of a concrete run. -/
theorem C10_witness : (Event.makedirs ["out", "intermediate"]).isCopytree = false :=
  C10_copy_source_simulator_only.1 b0 fs2 oracle0 ["out"] "avro" (Event.makedirs ["out", "intermediate"]) (by decide)

end BuildScript
